import Mathlib

/-!
Verification of the messaging and severity-control core of `lib/bb/__init__.py`
(BitBake library root module): the `BBLoggerMixin` extended-severity logging
surface, the module-level messaging convenience functions (`debug`, `warnonce`,
`erroronce`, `fatal`, ...), the `BBHandledException` marker, and the
`MultiprocessingContext` fork-context proxy.

The embedding is shallow: Python functions become Lean functions, the
process-wide mutable state (`bb.event.worker_pid`, `bb.msg.loggerDefaultDomains`,
`bb.msg.loggerDefaultLogLevel`, and the once-dedup cache) becomes an explicit
`MsgState` record threaded through the operations, and emission to the external
record sink becomes the list of `Record`s a call forwards.
-/

namespace BB

/-! ## Python stdlib `logging` numeric level constants -/

def logging_DEBUG : Int := 10

def logging_INFO : Int := 20

def logging_WARNING : Int := 30

def logging_ERROR : Int := 40

def logging_CRITICAL : Int := 50

/-! ## Records forwarded to the sink -/

/-- A log record forwarded to the external sink: numeric severity, logger
name, message body, and the opaque `extra` metadata dict (used by `error`
and `fatal`). -/
structure Record where
  level : Int
  name : String
  msg : String
  extra : List (String × String)
deriving DecidableEq, Repr

/-! ## Process-wide state -/

/-- The process-wide mutable state the messaging facade consults:
`worker_pid` (from `bb.event`; `0` means unset, i.e. Primary role),
`loggerDefaultDomains` and `loggerDefaultLogLevel` (from `bb.msg`), and
`onceSeen`, the dedup cache of the once-filter keyed by (family level, body). -/
structure MsgState where
  worker_pid : Nat
  loggerDefaultDomains : List (String × Int)
  loggerDefaultLogLevel : Int
  onceSeen : List (Int × String)
deriving DecidableEq, Repr

/-- Lookup of a logger name in `bb.msg.loggerDefaultDomains`
(`self.name in bb.msg.loggerDefaultDomains` / `bb.msg.loggerDefaultDomains[self.name]`). -/
def domainThreshold? (st : MsgState) (name : String) : Option Int :=
  st.loggerDefaultDomains.lookup name

/-! ## BBLoggerMixin severity levels -/

/-- `logging.INFO + 1` used by `BBLoggerMixin.plain`. -/
def plainLevel : Int := logging_INFO + 1

/-- `logging.INFO - 1` used by `BBLoggerMixin.verbose`. -/
def verboseLevel : Int := logging_INFO - 1

/-- `logging.INFO + 2` used by `BBLoggerMixin.verbnote`. -/
def verbnoteLevel : Int := logging_INFO + 2

/-- `logging.WARNING - 1` used by `BBLoggerMixin.warnonce`. -/
def warnonceLevel : Int := logging_WARNING - 1

/-- `logging.ERROR - 1` used by `BBLoggerMixin.erroronce`. -/
def erroronceLevel : Int := logging_ERROR - 1

/-- `loglevel = logging.DEBUG - level + 1`, the first line of
`BBLoggerMixin.bbdebug`. -/
def effLevel (level : Int) : Int := logging_DEBUG - level + 1

/-! ## BBLoggerMixin.bbdebug -/

/-- The first early return of `bbdebug`:
`self.name in bb.msg.loggerDefaultDomains and loglevel > bb.msg.loggerDefaultDomains[self.name]`. -/
def suppressedByDomain (st : MsgState) (name : String) (loglevel : Int) : Bool :=
  match domainThreshold? st name with
  | some t => loglevel > t
  | none => false

/-- `BBLoggerMixin.bbdebug(level, msg)` for a logger called `name`: computes
`loglevel`, applies the two controller-only early returns guarded by
`not bb.event.worker_pid`, and otherwise forwards one record via `self.log`.
(The `isinstance` warning branch cannot fire here: this entry takes an
integer level and string message, matching every in-repo call site.) -/
def bbdebug (st : MsgState) (name : String) (level : Int) (msg : String) :
    List Record :=
  let loglevel := effLevel level
  if st.worker_pid == 0 then
    if suppressedByDomain st name loglevel then []
    else if loglevel < st.loggerDefaultLogLevel then []
    else [⟨loglevel, name, msg, []⟩]
  else [⟨loglevel, name, msg, []⟩]

/-- Whether `bbdebug` reaches `self.log`, as a single boolean. -/
def bbdebugEmits (st : MsgState) (name : String) (loglevel : Int) : Bool :=
  st.worker_pid != 0 ||
    (!suppressedByDomain st name loglevel &&
      !(loglevel < st.loggerDefaultLogLevel))

theorem bbdebug_eq_if (st : MsgState) (name : String) (level : Int)
    (msg : String) :
    bbdebug st name level msg =
      if bbdebugEmits st name (effLevel level) then
        [⟨effLevel level, name, msg, []⟩]
      else [] := by
  unfold bbdebug bbdebugEmits
  by_cases hw : st.worker_pid == 0
  · by_cases hd : suppressedByDomain st name (effLevel level)
    · simp [hw, hd, bne]
    · by_cases hl : effLevel level < st.loggerDefaultLogLevel
      · simp [hw, hd, hl, bne]
      · simp [hw, hd, hl, bne]
  · simp [hw, bne]

/-! ## Python exception values produced by this module -/

/-- The exceptions this module can raise: `BBHandledException` (the
handled-failure marker class defined at the top of the file) and the stdlib
`AttributeError` (raised by attribute lookup/assignment). -/
inductive PyExn where
  | bbHandledException
  | attributeError (msg : String)
deriving DecidableEq, Repr

/-- Whether an exception carries the Handled-Failure marker, i.e. is an
instance of `BBHandledException`. -/
def carriesHandledMarker : PyExn → Bool
  | .bbHandledException => true
  | .attributeError _ => false

/-! ## Dedup cache of the once-filter (lives in `bb.msg`, outside this file) -/

/-- Modelled from the spec: the Dedup Cache check-and-set used by the "once"
severities. The filter that consumes the `WARNONCE`/`ERRORONCE` levels is
installed by `bb.msg`, which is not among the supplied sources; per the spec,
`shouldEmitOnce(family, messageBody)` returns true and records membership on
first occurrence, false on every later identical call with the same family
and body, with family namespaces independent. -/
def shouldEmitOnce (cache : List (Int × String)) (family : Int) (body : String) :
    Bool × List (Int × String) :=
  if (family, body) ∈ cache then (false, cache)
  else (true, (family, body) :: cache)

/-! ## Module-level messaging convenience functions

All of them route through `mainlogger = logging.getLogger("BitBake.Main")`
and concatenate their text fragments with `''.join(args)`. -/

def mainloggerName : String := "BitBake.Main"

/-- A record produced by `mainlogger.warning(...)`. -/
def warningRecord (msg : String) : Record :=
  ⟨logging_WARNING, mainloggerName, msg, []⟩

/-- A Python value passed as the `lvl` argument of `bb.debug`: the call sites
hand it either an integer or (misuse) a string. -/
inductive PyLevel where
  | int (n : Int)
  | str (s : String)
deriving DecidableEq, Repr

/-- `bb.debug(lvl, *args)`: if `lvl` is a string, warn about the invalid
level, shift it into the message tuple and coerce the level to 1; then
`mainlogger.bbdebug(lvl, ''.join(args))`. -/
def debug (st : MsgState) (lvl : PyLevel) (args : List String) : List Record :=
  match lvl with
  | .str s =>
      warningRecord ("Passed invalid debug level '" ++ s ++ "' to bb.debug") ::
        bbdebug st mainloggerName 1 (String.join (s :: args))
  | .int n => bbdebug st mainloggerName n (String.join args)

/-- `bb.note(*args)`: `mainlogger.info(''.join(args))`. -/
def note (args : List String) : List Record :=
  [⟨logging_INFO, mainloggerName, String.join args, []⟩]

/-- `bb.warn(*args)`: `mainlogger.warning(''.join(args))`. -/
def warn (args : List String) : List Record :=
  [warningRecord (String.join args)]

/-- `bb.error(*args, **kwargs)`: `mainlogger.error(''.join(args), extra=kwargs)`. -/
def error (args : List String) (kwargs : List (String × String)) : List Record :=
  [⟨logging_ERROR, mainloggerName, String.join args, kwargs⟩]

/-- `bb.warnonce(*args)`: `mainlogger.warnonce(''.join(args))`, which logs at
`logging.WARNING - 1`; the once-filter (modelled by `shouldEmitOnce`) then
forwards the record only on the first occurrence of the body in the
warnonce family. Returns the forwarded records and the updated state. -/
def warnonce (st : MsgState) (args : List String) : List Record × MsgState :=
  let body := String.join args
  let (emit, cache) := shouldEmitOnce st.onceSeen warnonceLevel body
  ((if emit then [⟨warnonceLevel, mainloggerName, body, []⟩] else []),
   { st with onceSeen := cache })

/-- `bb.erroronce(*args)`: like `warnonce` but at `logging.ERROR - 1`, in the
erroronce dedup family. -/
def erroronce (st : MsgState) (args : List String) : List Record × MsgState :=
  let body := String.join args
  let (emit, cache) := shouldEmitOnce st.onceSeen erroronceLevel body
  ((if emit then [⟨erroronceLevel, mainloggerName, body, []⟩] else []),
   { st with onceSeen := cache })

/-- `bb.fatal(*args, **kwargs)`:
`mainlogger.critical(''.join(args), extra=kwargs)` followed by
`raise BBHandledException()`. The second component is the control outcome:
`.ok` would be a normal return, `.error` a raised exception. -/
def fatal (args : List String) (kwargs : List (String × String)) :
    List Record × Except PyExn Unit :=
  ([⟨logging_CRITICAL, mainloggerName, String.join args, kwargs⟩],
   .error .bbHandledException)

/-- `warnonce` called `n` times in sequence, threading the state. -/
def iterWarnonce (st : MsgState) (args : List String) :
    Nat → List Record × MsgState
  | 0 => ([], st)
  | n + 1 =>
      ((warnonce st args).1 ++ (iterWarnonce (warnonce st args).2 args n).1,
       (iterWarnonce (warnonce st args).2 args n).2)

/-- The number of records in `rs` at severity `lvl` with body `body`. -/
def countBody (rs : List Record) (lvl : Int) (body : String) : Nat :=
  (rs.filter (fun r => r.level == lvl && r.msg == body)).length

/-- The number of records in `rs` at `logging.WARNING` severity. -/
def countWarnings (rs : List Record) : Nat :=
  (rs.filter (fun r => r.level == logging_WARNING)).length

/-! ## BBLogger construction and the debug rebinding -/

/-- `name.split(".")[0]`: the characters of the name before its first dot,
or the whole name when it contains no dot. Python `str.split` on a non-empty
separator never returns an empty list, so index 0 always exists. -/
def firstSegment (name : String) : String :=
  ⟨name.data.takeWhile (fun c => c != '.')⟩

/-- A logger as far as this module shapes it: its dotted name and whether
`setup_bblogger` rebound its `debug` attribute to `_debug_helper`. -/
structure BBLogger where
  name : String
  debugOverridden : Bool
deriving DecidableEq, Repr

/-- `BBLoggerMixin.setup_bblogger(name)`: `if name.split(".")[0] == "BitBake":
self.debug = self._debug_helper`. -/
def setup_bblogger (l : BBLogger) : BBLogger :=
  if firstSegment l.name == "BitBake" then { l with debugOverridden := true }
  else l

/-- `BBLoggerMixin._debug_helper(*args)`: `self.bbdebug(1, *args)`. -/
def debug_helper (st : MsgState) (name : String) (msg : String) : List Record :=
  bbdebug st name 1 msg

/-- The inherited stdlib `logging.Logger.debug(msg)`: forwards one record at
`logging.DEBUG` with no BitBake-specific filtering. -/
def stdLoggerDebug (name : String) (msg : String) : List Record :=
  [⟨logging_DEBUG, name, msg, []⟩]

/-- Calling `l.debug(msg)`: attribute lookup finds the instance attribute
`_debug_helper` when `setup_bblogger` installed it, else the inherited
class method `Logger.debug`. -/
def BBLogger.debugCall (l : BBLogger) (st : MsgState) (msg : String) :
    List Record :=
  if l.debugOverridden then debug_helper st l.name msg
  else stdLoggerDebug l.name msg

/-- `BBLogger.__init__(name, ...)`: calls `self.setup_bblogger(name)` on a
fresh logger (whose `debug` is the inherited one) before delegating to the
superclass constructor. -/
def BBLogger.construct (name : String) : BBLogger :=
  setup_bblogger ⟨name, false⟩

/-! ## MultiprocessingContext: the fork-context process factory -/

/-- An attribute provider: the attribute table of the fork context object
(`mp.get_context("fork")`) or of the `multiprocessing` module itself.
Primitives are opaque tokens. -/
structure Provider where
  attrs : List (String × String)
deriving DecidableEq, Repr

/-- Python `getattr(p, name)` as a partial lookup; `hasattr(p, name)` is
`(p.lookupAttr name).isSome`. -/
def Provider.lookupAttr (p : Provider) (name : String) : Option String :=
  p.attrs.lookup name

/-- The factory state: `__init__` binds the single field `_ctx` to
`mp.get_context("fork")` via `super().__setattr__`. -/
structure MultiprocessingContext where
  ctx : Provider
deriving DecidableEq, Repr

/-- `MultiprocessingContext.__getattr__(name)`:
`if hasattr(self._ctx, name): return getattr(self._ctx, name)`, else
`return getattr(mp, name)`, which raises `AttributeError` when the
`multiprocessing` module does not define `name` either. -/
def MultiprocessingContext.getattrImpl (self : MultiprocessingContext)
    (mp : Provider) (name : String) : Except PyExn String :=
  match self.ctx.lookupAttr name with
  | some v => .ok v
  | none =>
      match mp.lookupAttr name with
      | some v => .ok v
      | none =>
          .error (.attributeError
            ("module multiprocessing has no attribute " ++ name))

/-- `MultiprocessingContext.__setattr__(name, value)`: unconditionally
`raise AttributeError(f"Unable to set attribute {name}")`. The first
component is the factory state after the attempt. -/
def MultiprocessingContext.setattrImpl (self : MultiprocessingContext)
    (name : String) (_value : String) :
    MultiprocessingContext × Except PyExn Unit :=
  (self, .error (.attributeError ("Unable to set attribute " ++ name)))

/-! ## Helper lemmas -/

theorem join_cons (s : String) (l : List String) :
    String.join (s :: l) = s ++ String.join l := by
  rw [String.join_eq, String.join_eq]
  rfl

theorem bbdebugEmits_primary (st : MsgState) (name : String) (lv : Int)
    (hw : st.worker_pid = 0) :
    bbdebugEmits st name lv = true ↔
      ((domainThreshold? st name = none ∨
        ∃ t, domainThreshold? st name = some t ∧ lv ≤ t) ∧
       st.loggerDefaultLogLevel ≤ lv) := by
  unfold bbdebugEmits suppressedByDomain
  cases h : domainThreshold? st name with
  | none => simp [hw, h]
  | some t => simp [hw, h]

theorem warnonce_key_mem (st : MsgState) (args : List String) :
    (warnonceLevel, String.join args) ∈ (warnonce st args).2.onceSeen := by
  unfold warnonce shouldEmitOnce
  by_cases h : (warnonceLevel, String.join args) ∈ st.onceSeen <;> simp [h]

theorem warnonce_seen_emits_nothing (st : MsgState) (args : List String)
    (h : (warnonceLevel, String.join args) ∈ st.onceSeen) :
    (warnonce st args).1 = [] := by
  unfold warnonce shouldEmitOnce
  simp [h]

theorem iterWarnonce_seen_emits_nothing (args : List String) (n : Nat) :
    ∀ st : MsgState, (warnonceLevel, String.join args) ∈ st.onceSeen →
      (iterWarnonce st args n).1 = [] := by
  induction n with
  | zero => intro st _; rfl
  | succ n ih =>
      intro st h
      unfold iterWarnonce
      rw [warnonce_seen_emits_nothing st args h,
        ih _ (warnonce_key_mem st args)]
      rfl

theorem countBody_append (a b : List Record) (lv : Int) (body : String) :
    countBody (a ++ b) lv body = countBody a lv body + countBody b lv body := by
  unfold countBody
  rw [List.filter_append, List.length_append]

theorem countBody_warnonce_le_one (st : MsgState) (args : List String) :
    countBody (warnonce st args).1 warnonceLevel (String.join args) ≤ 1 := by
  unfold warnonce shouldEmitOnce
  by_cases h : (warnonceLevel, String.join args) ∈ st.onceSeen <;>
    simp [h, countBody]

theorem countBody_iterWarnonce_le_one (st : MsgState) (args : List String)
    (n : Nat) :
    countBody (iterWarnonce st args n).1 warnonceLevel (String.join args) ≤ 1 := by
  cases n with
  | zero => simp [iterWarnonce, countBody]
  | succ n =>
      unfold iterWarnonce
      rw [countBody_append,
        iterWarnonce_seen_emits_nothing args n _ (warnonce_key_mem st args)]
      simpa [countBody] using countBody_warnonce_le_one st args

/-! ## Claim theorems -/

/-- C1: in Primary role (`worker_pid` unset), `bbdebug(n, msg)` forwards a
record iff the logger's name is absent from the Domain Filter Table or
`effectiveLevel(n) = logging.DEBUG - n + 1` is at most the table's threshold,
and in addition `effectiveLevel(n)` is at least `loggerDefaultLogLevel`;
suppression happens exactly otherwise. -/
theorem bbdebug_primary_emits_iff (st : MsgState) (name : String) (n : Int)
    (msg : String) (hw : st.worker_pid = 0) :
    effLevel n = logging_DEBUG - n + 1 ∧
    (bbdebug st name n msg = [⟨effLevel n, name, msg, []⟩] ↔
      ((domainThreshold? st name = none ∨
        ∃ t, domainThreshold? st name = some t ∧ effLevel n ≤ t) ∧
       st.loggerDefaultLogLevel ≤ effLevel n)) ∧
    (bbdebug st name n msg = [] ↔
      ¬ ((domainThreshold? st name = none ∨
        ∃ t, domainThreshold? st name = some t ∧ effLevel n ≤ t) ∧
       st.loggerDefaultLogLevel ≤ effLevel n)) := by
  refine ⟨rfl, ?_, ?_⟩ <;>
    rw [bbdebug_eq_if, ← bbdebugEmits_primary st name (effLevel n) hw] <;>
    by_cases he : bbdebugEmits st name (effLevel n) = true <;>
      simp [he]

/-- C1 witness: concrete Primary-role state where the domain threshold and
the global floor both admit a `bbdebug(2, ...)` call. -/
theorem bbdebug_primary_emits_iff_witness :
    effLevel 2 = logging_DEBUG - 2 + 1 ∧
    (bbdebug ⟨0, [("BitBake.Fetcher", 9)], 5, []⟩ "BitBake.Fetcher" 2 "m" =
        [⟨effLevel 2, "BitBake.Fetcher", "m", []⟩] ↔
      ((domainThreshold? ⟨0, [("BitBake.Fetcher", 9)], 5, []⟩ "BitBake.Fetcher" = none ∨
        ∃ t, domainThreshold? ⟨0, [("BitBake.Fetcher", 9)], 5, []⟩ "BitBake.Fetcher" = some t ∧
          effLevel 2 ≤ t) ∧
       (5 : Int) ≤ effLevel 2)) ∧
    (bbdebug ⟨0, [("BitBake.Fetcher", 9)], 5, []⟩ "BitBake.Fetcher" 2 "m" = [] ↔
      ¬ ((domainThreshold? ⟨0, [("BitBake.Fetcher", 9)], 5, []⟩ "BitBake.Fetcher" = none ∨
        ∃ t, domainThreshold? ⟨0, [("BitBake.Fetcher", 9)], 5, []⟩ "BitBake.Fetcher" = some t ∧
          effLevel 2 ≤ t) ∧
       (5 : Int) ≤ effLevel 2)) :=
  bbdebug_primary_emits_iff ⟨0, [("BitBake.Fetcher", 9)], 5, []⟩
    "BitBake.Fetcher" 2 "m" rfl

/-- C2: `fatal(args, kwargs)` emits exactly one CRITICAL record whose body is
the verbatim concatenation of the fragments, then raises a
`BBHandledException` (which carries the Handled-Failure marker) and never
returns control normally. -/
theorem fatal_emits_and_raises (args : List String)
    (kwargs : List (String × String)) :
    (fatal args kwargs).1 =
      [⟨logging_CRITICAL, mainloggerName, String.join args, kwargs⟩] ∧
    (fatal args kwargs).2 = Except.error PyExn.bbHandledException ∧
    carriesHandledMarker PyExn.bbHandledException = true ∧
    (fatal args kwargs).2 ≠ Except.ok () :=
  ⟨rfl, rfl, rfl, by simp [fatal]⟩

/-- C4: in Worker role (`worker_pid` set), `bbdebug(n, msg)` forwards the
record for every level, and its result does not depend on the Domain Filter
Table or the default log level. -/
theorem bbdebug_worker_always_emits (st : MsgState) (name : String) (n : Int)
    (msg : String) (hw : st.worker_pid ≠ 0) :
    bbdebug st name n msg = [⟨effLevel n, name, msg, []⟩] ∧
    ∀ (doms : List (String × Int)) (lvl : Int),
      bbdebug ⟨st.worker_pid, doms, lvl, st.onceSeen⟩ name n msg =
        bbdebug st name n msg := by
  have hb : (st.worker_pid == 0) = false := by simpa using hw
  constructor
  · unfold bbdebug
    simp [hb]
  · intro doms lvl
    unfold bbdebug
    simp [hb]

/-- C4 witness: a worker-role state whose table entry would otherwise
suppress the call. -/
theorem bbdebug_worker_always_emits_witness :
    bbdebug ⟨7, [("BitBake.Main", -100)], 100, []⟩ "BitBake.Main" 3 "m" =
      [⟨effLevel 3, "BitBake.Main", "m", []⟩] ∧
    ∀ (doms : List (String × Int)) (lvl : Int),
      bbdebug ⟨7, doms, lvl, []⟩ "BitBake.Main" 3 "m" =
        bbdebug ⟨7, [("BitBake.Main", -100)], 100, []⟩ "BitBake.Main" 3 "m" :=
  bbdebug_worker_always_emits ⟨7, [("BitBake.Main", -100)], 100, []⟩
    "BitBake.Main" 3 "m" (by decide)

/-- C6: `__getattr__` returns the fork context's attribute when it defines
the name, otherwise the `multiprocessing` module's, and raises
`AttributeError` exactly when neither defines it. -/
theorem getattr_two_tier (self : MultiprocessingContext) (mp : Provider)
    (name : String) :
    (∀ v, self.ctx.lookupAttr name = some v →
      self.getattrImpl mp name = .ok v) ∧
    (self.ctx.lookupAttr name = none →
      ∀ v, mp.lookupAttr name = some v → self.getattrImpl mp name = .ok v) ∧
    ((∃ e, self.getattrImpl mp name = .error e) ↔
      (self.ctx.lookupAttr name = none ∧ mp.lookupAttr name = none)) := by
  unfold MultiprocessingContext.getattrImpl
  cases hc : self.ctx.lookupAttr name with
  | some v => simp [hc]
  | none =>
      cases hm : mp.lookupAttr name with
      | some v => simp [hc, hm]
      | none => simp [hc, hm]

/-- C6 witness: a factory whose fork context defines `Lock` but not `Queue`,
with the generic module defining `Queue` only. -/
theorem getattr_two_tier_witness :
    (∀ v, Provider.lookupAttr ⟨[("Lock", "forkLock")]⟩ "Lock" = some v →
      MultiprocessingContext.getattrImpl ⟨⟨[("Lock", "forkLock")]⟩⟩
        ⟨[("Queue", "mpQueue")]⟩ "Lock" = .ok v) ∧
    (Provider.lookupAttr ⟨[("Lock", "forkLock")]⟩ "Lock" = none →
      ∀ v, Provider.lookupAttr ⟨[("Queue", "mpQueue")]⟩ "Lock" = some v →
        MultiprocessingContext.getattrImpl ⟨⟨[("Lock", "forkLock")]⟩⟩
          ⟨[("Queue", "mpQueue")]⟩ "Lock" = .ok v) ∧
    ((∃ e, MultiprocessingContext.getattrImpl ⟨⟨[("Lock", "forkLock")]⟩⟩
        ⟨[("Queue", "mpQueue")]⟩ "Lock" = .error e) ↔
      (Provider.lookupAttr ⟨[("Lock", "forkLock")]⟩ "Lock" = none ∧
        Provider.lookupAttr ⟨[("Queue", "mpQueue")]⟩ "Lock" = none)) :=
  getattr_two_tier ⟨⟨[("Lock", "forkLock")]⟩⟩ ⟨[("Queue", "mpQueue")]⟩ "Lock"

/-- C7: `__setattr__` always raises `AttributeError`, leaves the factory
state unchanged, and every subsequent `__getattr__` lookup returns the same
result as before the attempt. -/
theorem setattr_immutable (self : MultiprocessingContext) (mp : Provider)
    (name value : String) :
    (self.setattrImpl name value).2 =
      .error (.attributeError ("Unable to set attribute " ++ name)) ∧
    (self.setattrImpl name value).1 = self ∧
    ∀ m, ((self.setattrImpl name value).1).getattrImpl mp m =
      self.getattrImpl mp m :=
  ⟨rfl, rfl, fun _ => rfl⟩

/-- C8: the numeric severity levels: PLAIN = info+1, VERBOSE = info-1,
VERBNOTE = info+2 (above PLAIN), WARNONCE = warning-1, ERRORONCE = error-1,
and DEBUG(n) = logging.DEBUG - n + 1 is strictly decreasing in n with every
DEBUG(n), n positive, numerically below info. -/
theorem severity_level_ordering :
    plainLevel = logging_INFO + 1 ∧
    verboseLevel = logging_INFO - 1 ∧
    verbnoteLevel = logging_INFO + 2 ∧
    plainLevel < verbnoteLevel ∧
    warnonceLevel = logging_WARNING - 1 ∧
    erroronceLevel = logging_ERROR - 1 ∧
    ∀ n : Int, 0 < n →
      effLevel (n + 1) < effLevel n ∧ effLevel n < logging_INFO := by
  refine ⟨rfl, rfl, rfl, by decide, rfl, rfl, ?_⟩
  intro n hn
  unfold effLevel logging_DEBUG logging_INFO
  omega

/-- C8 witness: the DEBUG-family inequalities at n = 2. -/
theorem severity_level_ordering_witness :
    (0 : Int) < 2 ∧ effLevel (2 + 1) < effLevel 2 ∧ effLevel 2 < logging_INFO :=
  ⟨by decide, severity_level_ordering.2.2.2.2.2.2 2 (by decide)⟩

/-- C3: for a body not yet seen in either once-family, any number of
`warnonce` calls with that body forwards at most one record at the warnonce
level with that body; the first `warnonce` emits, and a subsequent
`erroronce` with the same body still emits, since the two families keep
independent dedup namespaces. -/
theorem warnonce_dedup_and_families_independent (st : MsgState)
    (args : List String) (n : Nat)
    (h1 : (warnonceLevel, String.join args) ∉ st.onceSeen)
    (h2 : (erroronceLevel, String.join args) ∉ st.onceSeen) :
    countBody (iterWarnonce st args n).1 warnonceLevel (String.join args) ≤ 1 ∧
    (warnonce st args).1 =
      [⟨warnonceLevel, mainloggerName, String.join args, []⟩] ∧
    (erroronce (warnonce st args).2 args).1 =
      [⟨erroronceLevel, mainloggerName, String.join args, []⟩] := by
  refine ⟨countBody_iterWarnonce_le_one st args n, ?_, ?_⟩
  · unfold warnonce shouldEmitOnce
    simp [h1]
  · have hc : (erroronceLevel, String.join args) ∉
        (warnonce st args).2.onceSeen := by
      unfold warnonce shouldEmitOnce
      by_cases h : (warnonceLevel, String.join args) ∈ st.onceSeen
      · simpa [h] using h2
      · have hne : erroronceLevel ≠ warnonceLevel := by decide
        simp [h, h2, hne]
    unfold erroronce shouldEmitOnce
    simp [hc]

/-- C3 witness: five `warnonce("disk full")` calls from a fresh state emit at
most one record with that body, and `erroronce` with the same body still
emits afterwards. -/
theorem warnonce_dedup_witness :
    countBody (iterWarnonce ⟨0, [], 0, []⟩ ["disk full"] 5).1 warnonceLevel
      (String.join ["disk full"]) ≤ 1 ∧
    (warnonce ⟨0, [], 0, []⟩ ["disk full"]).1 =
      [⟨warnonceLevel, mainloggerName, String.join ["disk full"], []⟩] ∧
    (erroronce (warnonce ⟨0, [], 0, []⟩ ["disk full"]).2 ["disk full"]).1 =
      [⟨erroronceLevel, mainloggerName, String.join ["disk full"], []⟩] :=
  warnonce_dedup_and_families_independent ⟨0, [], 0, []⟩ ["disk full"] 5
    (by simp) (by simp)

/-- C5 counterexample: the level argument 0 is not a positive integer, yet
`bb.debug(0, "x")` in a Primary-role state emits no warning about the misuse
and does not coerce the level to 1: it forwards a single record at
`effectiveLevel(0) = 11`, not at `effectiveLevel(1) = 10`. -/
theorem debug_nonpositive_int_counterexample :
    debug ⟨0, [], 0, []⟩ (.int 0) ["x"] =
      [⟨11, mainloggerName, "x", []⟩] ∧
    countWarnings (debug ⟨0, [], 0, []⟩ (.int 0) ["x"]) = 0 ∧
    effLevel 1 = 10 ∧ (11 : Int) ≠ 10 := by
  refine ⟨?_, ?_, by decide, by decide⟩ <;> decide

/-- C5 amended: the warn-and-coerce behaviour applies exactly to string level
arguments: `bb.debug(s, args)` for a string `s` logs one local warning
describing the misuse, coerces the level to 1 (folding `s` into the message),
and continues to emit through the normal debug path; an integer level —
positive or not — is passed through unchanged with no warning. In both cases
the call returns normally (it is a total function into record lists). -/
theorem debug_string_level_coercion (st : MsgState) (s : String)
    (args : List String) (n : Int)
    (hE : bbdebugEmits st mainloggerName (effLevel 1) = true) :
    debug st (.str s) args =
      [warningRecord ("Passed invalid debug level '" ++ s ++ "' to bb.debug"),
       ⟨effLevel 1, mainloggerName, s ++ String.join args, []⟩] ∧
    debug st (.int n) args = bbdebug st mainloggerName n (String.join args) := by
  constructor
  · simp only [debug]
    rw [join_cons, bbdebug_eq_if, if_pos hE]
  · rfl

/-- C5 amended witness: concrete coercion of `bb.debug("2", "ab")` in a state
whose floor admits DEBUG(1). -/
theorem debug_string_level_coercion_witness :
    debug ⟨0, [], 0, []⟩ (.str "2") ["ab"] =
      [warningRecord ("Passed invalid debug level '" ++ "2" ++ "' to bb.debug"),
       ⟨effLevel 1, mainloggerName, "2" ++ String.join ["ab"], []⟩] ∧
    debug ⟨0, [], 0, []⟩ (.int 5) ["ab"] =
      bbdebug ⟨0, [], 0, []⟩ mainloggerName 5 (String.join ["ab"]) :=
  debug_string_level_coercion ⟨0, [], 0, []⟩ "2" ["ab"] 5 (by decide)

/-- C9: a logger whose first dotted segment is "BitBake" has its `debug`
rebound by `setup_bblogger` to `bbdebug(1, ·)`; any other logger's `debug`
is left as the inherited one. -/
theorem setup_bblogger_debug_dispatch (name : String) (st : MsgState)
    (msg : String) :
    (firstSegment name = "BitBake" →
      (BBLogger.construct name).debugCall st msg = bbdebug st name 1 msg) ∧
    (firstSegment name ≠ "BitBake" →
      (BBLogger.construct name).debugCall st msg =
        BBLogger.debugCall ⟨name, false⟩ st msg) := by
  constructor
  · intro h
    unfold BBLogger.construct setup_bblogger
    rw [if_pos (by simpa using h)]
    rfl
  · intro h
    unfold BBLogger.construct setup_bblogger
    rw [if_neg (by simpa using h)]

/-- C9 witness: `BitBake.Fetch` gets the rebound debug; `oe.utils` keeps the
inherited one. -/
theorem setup_bblogger_debug_dispatch_witness :
    (BBLogger.construct "BitBake.Fetch").debugCall ⟨0, [], 0, []⟩ "m" =
      bbdebug ⟨0, [], 0, []⟩ "BitBake.Fetch" 1 "m" ∧
    (BBLogger.construct "oe.utils").debugCall ⟨0, [], 0, []⟩ "m" =
      BBLogger.debugCall ⟨"oe.utils", false⟩ ⟨0, [], 0, []⟩ "m" :=
  ⟨(setup_bblogger_debug_dispatch "BitBake.Fetch" ⟨0, [], 0, []⟩ "m").1
      (by decide),
   (setup_bblogger_debug_dispatch "oe.utils" ⟨0, [], 0, []⟩ "m").2
      (by decide)⟩

/-- C10: when a string `s` is passed as the level of `bb.debug`, the records
the call forwards at `effectiveLevel(1) = DEBUG(1)` are exactly one record
whose body is `s` followed by the verbatim concatenation of the remaining
fragments: the misused level string leads the message instead of being
discarded. -/
theorem debug_string_level_in_message (st : MsgState) (s : String)
    (args : List String)
    (hE : bbdebugEmits st mainloggerName (effLevel 1) = true) :
    ((debug st (.str s) args).filter (fun r => r.level == effLevel 1)) =
      [⟨effLevel 1, mainloggerName, s ++ String.join args, []⟩] := by
  simp only [debug]
  rw [join_cons, bbdebug_eq_if, if_pos hE]
  rfl

/-- C10 witness: `bb.debug("2", "a", "b")` forwards its DEBUG(1) record with
body `"2ab"`. -/
theorem debug_string_level_in_message_witness :
    ((debug ⟨0, [], 0, []⟩ (.str "2") ["a", "b"]).filter
        (fun r => r.level == effLevel 1)) =
      [⟨effLevel 1, mainloggerName, "2" ++ String.join ["a", "b"], []⟩] :=
  debug_string_level_in_message ⟨0, [], 0, []⟩ "2" ["a", "b"] (by decide)

end BB
